import Mathlib

/-!
# Collaborative document synchronization engine — verification development

Shallow embedding of the collaborative editing core of the repository:
the presence store (`editing_sessions` table and the `updateEditingSession`
upsert of `useCollaboration.ts`), the document synchronizer (`saveFileContent`
and the `fileChannel` realtime handler), the change-tracker diff display
(`parsedDiff` in `EditorPanel.tsx`), and the session coordinator's local
edit path (`handleContentChange` in `IDELayout.tsx`, `handleSave` in
`EditorPanel.tsx`).

Strings of the host language are modelled as Lean `String` (diff lines as
`List Char`, its underlying character sequence); nullable strings as
`Option String`; database tables as lists of row structures; asynchronous
backend outcomes as an explicit `Option String` error parameter; and the
observable side effects of a handler (toasts, console logs, invocations of
the registered content-change callback) as an explicit effect list.
-/

namespace Collab

/-- Observable side effects emitted by the collaboration handlers:
`setContent c` is an invocation of the registered content-change callback
(`onContentChange`), `consoleError` a console log, `toast` a user-visible
notification (with its `destructive` variant flag). -/
inductive Effect where
  | setContent (content : String)
  | consoleError (msg : String)
  | toast (title description : String) (destructive : Bool)
deriving DecidableEq, Repr

/-- Interpreting an effect list on the local edit buffer: only a
`setContent` invocation changes the buffer. -/
def applyEffect (buffer : String) : Effect → String
  | Effect.setContent c => c
  | _ => buffer

/-- Result of running an effect list against the local edit buffer. -/
def applyEffects (effects : List Effect) (buffer : String) : String :=
  effects.foldl applyEffect buffer

/-- A row of the `files` table (schema in `BACKEND_API_ADDITIONS.md`,
shape `FileData` in `types/collaboration.ts`). -/
structure FileRow where
  id : String
  project_id : String
  filename : String
  content : String
  file_type : Option String
  created_by : Option String
  created_at : String
  updated_at : String
deriving DecidableEq, Repr

/-- A row of the `editing_sessions` table (schema in
`BACKEND_API_ADDITIONS.md`; `UNIQUE(file_id, user_id)`). -/
structure SessionRow where
  file_id : String
  user_id : String
  cursor_position : Int
  selection_start : Int
  selection_end : Int
  is_active : Bool
  last_activity : String
deriving DecidableEq, Repr

/-- A row of the `profiles` table, as selected by the collaborator query. -/
structure ProfileRow where
  id : String
  display_name : Option String
  avatar_url : Option String
deriving DecidableEq, Repr

/-- The `CollaboratorInfo` record assembled by the `sessionChannel`
handler of `useCollaboration.ts`. -/
structure CollaboratorInfo where
  id : String
  display_name : String
  avatar_url : Option String
  cursor_position : Int
  selection_start : Int
  selection_end : Int
  is_active : Bool
deriving DecidableEq, Repr

/-- The backing-store state the synchronizer writes to. The `files` table is
from the repository's SQL schema. `baselines` — Modelled from the spec: the
Change Tracker's baseline content ("last-accepted snapshot used for
diffing", spec §3) is held per document by the external diff backend reached
through `apiService`, whose implementation is not among the repository
sources; the content write path never calls that backend. -/
structure BackendState where
  files : List FileRow
  baselines : List (String × String)
deriving DecidableEq, Repr

/-- Key of a presence record: the `(file_id, user_id)` pair. -/
def skey (r : SessionRow) : String × String := (r.file_id, r.user_id)

/-- The presence store holds at most one record per `(file_id, user_id)`
pair (the table's `UNIQUE(file_id, user_id)` constraint). -/
def sessionKeyUnique (table : List SessionRow) : Prop :=
  table.Pairwise (fun a b => skey a ≠ skey b)

/-- Whether a row carries the given `(file_id, user_id)` key. -/
def matchesKey (fid uid : String) (r : SessionRow) : Bool :=
  r.file_id == fid && r.user_id == uid

/-- The database `upsert` on `editing_sessions` keyed by its
`UNIQUE(file_id, user_id)` constraint: replaces the record with the same
key when one exists, inserts otherwise. -/
def sessionUpsert (table : List SessionRow) (row : SessionRow) : List SessionRow :=
  if table.any (matchesKey row.file_id row.user_id) then
    table.map (fun r => if matchesKey row.file_id row.user_id r then row else r)
  else
    table ++ [row]

/-- `useCollaboration.updateEditingSession`: guarded on falsy `fileId` /
`userId` (null or empty string), then upserts the caller's presence record
with `is_active := true` and `last_activity := now`; a backend error is
logged to the console and nothing else happens. -/
def updateEditingSession (fileId userId : Option String)
    (cursorPosition selectionStart selectionEnd : Int) (now : String)
    (backendError : Option String) (table : List SessionRow) :
    List SessionRow × List Effect :=
  match fileId, userId with
  | some fid, some uid =>
      if fid.isEmpty || uid.isEmpty then (table, [])
      else
        match backendError with
        | some e => (table, [Effect.consoleError ("Error updating editing session: " ++ e)])
        | none =>
            (sessionUpsert table
              { file_id := fid
                user_id := uid
                cursor_position := cursorPosition
                selection_start := selectionStart
                selection_end := selectionEnd
                is_active := true
                last_activity := now }, [])
  | _, _ => (table, [])

/-- The `update` on the `files` table issued by `saveFileContent`: sets
`content` and `updated_at` on the row whose `id` matches. -/
def filesUpdate (table : List FileRow) (fid newContent now : String) : List FileRow :=
  table.map (fun f =>
    if f.id == fid then { f with content := newContent, updated_at := now } else f)

/-- `useCollaboration.saveFileContent`: guarded on falsy `fileId`; on
success updates the file row's content and `updated_at`; on a backend
error logs to the console and raises a destructive toast, touching no
state. -/
def saveFileContent (fileId : Option String) (newContent : String) (now : String)
    (backendError : Option String) (st : BackendState) : BackendState × List Effect :=
  match fileId with
  | none => (st, [])
  | some fid =>
      if fid.isEmpty then (st, [])
      else
        match backendError with
        | some e =>
            (st, [Effect.consoleError ("Error saving file: " ++ e),
                  Effect.toast "Error saving file" e true])
        | none =>
            ({ st with files := filesUpdate st.files fid newContent now }, [])

/-- The `fileChannel` postgres-changes handler of `useCollaboration.ts`:
invokes the registered `onContentChange` callback with the payload's new
content exactly when it differs from the current local buffer content. -/
def fileChannelHandler (content payloadNewContent : String) : List Effect :=
  if payloadNewContent != content then [Effect.setContent payloadNewContent] else []

/-- The cleanup effect of `useCollaboration.ts` on unmount: sets
`is_active := false` on the caller's presence record. -/
def deactivateSession (table : List SessionRow) (fid uid : String) : List SessionRow :=
  table.map (fun r =>
    if r.file_id == fid && r.user_id == uid then { r with is_active := false } else r)

/-- The select issued by the `sessionChannel` handler: rows of
`editing_sessions` with the given `file_id` and `is_active = true`. -/
def querySessions (sessions : List SessionRow) (fid : String) : List SessionRow :=
  sessions.filter (fun s => s.file_id == fid && s.is_active)

/-- The `profiles!user_id` join: first profile row with the given id. -/
def lookupProfile (profiles : List ProfileRow) (uid : String) : Option ProfileRow :=
  profiles.find? (fun p => p.id == uid)

/-- The host language's `x || dflt` on a nullable string: falsy (absent or
empty) values fall back to the default. -/
def jsOrString (v : Option String) (dflt : String) : String :=
  match v with
  | some s => if s.isEmpty then dflt else s
  | none => dflt

/-- The collaborator list computed by the `sessionChannel` handler: active
sessions of the file, minus the caller's own (`user_id !== userId`),
mapped to `CollaboratorInfo` with the joined profile data. -/
def loadCollaborators (sessions : List SessionRow) (profiles : List ProfileRow)
    (fid : String) (userId : Option String) : List CollaboratorInfo :=
  ((querySessions sessions fid).filter (fun s => some s.user_id != userId)).map
    (fun s =>
      { id := s.user_id
        display_name :=
          jsOrString ((lookupProfile profiles s.user_id).bind ProfileRow.display_name)
            "Anonymous"
        avatar_url := (lookupProfile profiles s.user_id).bind ProfileRow.avatar_url
        cursor_position := s.cursor_position
        selection_start := s.selection_start
        selection_end := s.selection_end
        is_active := s.is_active })

/-- Local editor state of `EditorPanel.tsx`: the content shown in the
textarea and the dirty flag `hasChanges`. -/
structure EditorState where
  content : String
  hasChanges : Bool
deriving DecidableEq, Repr

/-- Outcome of the awaited `apiService.updateFileContent` call. -/
inductive SaveResult where
  | ok
  | err (message : String)
deriving DecidableEq, Repr

/-- `EditorPanel.handleSave`: no-op without a selected file; on success
clears `hasChanges` and raises a success toast; on failure raises a
destructive toast and leaves the editor state untouched. -/
def handleSave (selectedFile : Option String) (st : EditorState) (result : SaveResult) :
    EditorState × List Effect :=
  match selectedFile with
  | none => (st, [])
  | some f =>
      if f.isEmpty then (st, [])
      else
        match result with
        | SaveResult.ok =>
            ({ st with hasChanges := false },
             [Effect.toast "File saved" (f ++ " has been saved successfully") false])
        | SaveResult.err m => (st, [Effect.toast "Save failed" m true])

/-- Kind of a displayed diff line in `EditorPanel.parsedDiff`. -/
inductive HunkKind where
  | header
  | added
  | removed
  | context
deriving DecidableEq, Repr

/-- A classified diff line: its kind and its displayed content. Diff lines
are modelled as their character sequences. -/
structure ParsedLine where
  type : HunkKind
  content : List Char
deriving DecidableEq, Repr

/-- The per-line classification of `EditorPanel.parsedDiff`: `@@`-prefixed
lines are headers kept whole, then `+`-prefixed lines are additions with
the marker stripped (`substring(1)`), then `-`-prefixed lines are removals
with the marker stripped, and everything else is context kept whole. -/
def classifyDiffLine (line : List Char) : ParsedLine :=
  if List.isPrefixOf ['@', '@'] line then { type := HunkKind.header, content := line }
  else if List.isPrefixOf ['+'] line then { type := HunkKind.added, content := line.drop 1 }
  else if List.isPrefixOf ['-'] line then { type := HunkKind.removed, content := line.drop 1 }
  else { type := HunkKind.context, content := line }

/-- `EditorPanel.parsedDiff`: classify every line of the diff response. -/
def parsedDiff (diff : List (List Char)) : List ParsedLine :=
  diff.map classifyDiffLine

/-- A scheduled auto-save timer created by `setTimeout(..., 1000)` in
`IDELayout.handleContentChange`: fires at `fireAt` and writes `content`. -/
structure PendingTimer where
  fireAt : Nat
  content : String
deriving DecidableEq, Repr

/-- The coordinator-side state of `IDELayout`: the `fileContent` buffer and
the set of scheduled, not-yet-cancelled auto-save timers. -/
structure CoordState where
  fileContent : String
  timers : List PendingTimer
deriving DecidableEq, Repr

/-- `IDELayout.handleContentChange` at time `now`: updates the buffer and
schedules a 1000 ms auto-save timer carrying the new content. The source
builds a `clearTimeout` closure and returns it, but every caller (the
`EditorPanel` change handler and the textarea change event) discards the
return value, so no previously scheduled timer is ever cancelled. -/
def handleContentChange (st : CoordState) (now : Nat) (newContent : String) : CoordState :=
  { fileContent := newContent
    timers := st.timers ++ [{ fireAt := now + 1000, content := newContent }] }

/-- The contents handed to `saveFileContent` once all scheduled timers have
fired: nothing cancels a scheduled timer, so each issues its own write. -/
def firedWrites (st : CoordState) : List String :=
  st.timers.map PendingTimer.content

/-- C10: when no document is open (`fileId = none`) or no user is signed in
(`userId = none`), `updateEditingSession` returns without issuing any
backend operation, and `saveFileContent` with `fileId = none` performs no
write; in each case no error is raised, the store is unchanged, and no
effect is emitted. -/
theorem C10_null_guards_are_noops :
    (∀ (userId : Option String) (c s e : Int) (now : String)
        (err : Option String) (table : List SessionRow),
        updateEditingSession none userId c s e now err table = (table, [])) ∧
    (∀ (fileId : Option String) (c s e : Int) (now : String)
        (err : Option String) (table : List SessionRow),
        updateEditingSession fileId none c s e now err table = (table, [])) ∧
    (∀ (newContent now : String) (err : Option String) (st : BackendState),
        saveFileContent none newContent now err st = (st, [])) := by
  refine ⟨?_, ?_, ?_⟩
  · intro userId c s e now err table
    cases userId <;> rfl
  · intro fileId c s e now err table
    cases fileId <;> rfl
  · intro newContent now err st
    rfl

/-- C9: a remote file-change notification whose new content is string-equal
to the current local buffer performs no local update: the content-change
callback is not invoked and the buffer is unchanged. -/
theorem C9_equal_remote_content_is_noop (content payloadNewContent : String)
    (h : payloadNewContent = content) :
    fileChannelHandler content payloadNewContent = [] ∧
    applyEffects (fileChannelHandler content payloadNewContent) content = content := by
  subst h
  simp [fileChannelHandler, applyEffects]

/-- Witness for C9 at a concrete buffer and notification content. -/
theorem C9_witness :
    fileChannelHandler "hello" "hello" = [] ∧
    applyEffects (fileChannelHandler "hello" "hello") "hello" = "hello" :=
  C9_equal_remote_content_is_noop "hello" "hello" rfl

/-- C1 as stated is false: when the remote content is string-equal to the
local buffer, the handler does not invoke the callback at all, so the
listener is invoked zero times rather than exactly once. -/
theorem C1_counterexample :
    fileChannelHandler "a" "a" = [] ∧
    fileChannelHandler "a" "a" ≠ [Effect.setContent "a"] := by
  constructor
  · simp [fileChannelHandler]
  · simp [fileChannelHandler]

/-- C1 (amended): whenever the remote content differs from the current
local buffer — in particular whenever the buffer holds unflushed dirty
edits that differ from it — the listener is invoked exactly once with the
new content; and in every case, equal or not, the buffer after handling
equals the remote content, so a remote update is never silently dropped. -/
theorem C1_remote_update_never_lost (buf payloadNewContent : String) :
    (payloadNewContent ≠ buf →
      fileChannelHandler buf payloadNewContent = [Effect.setContent payloadNewContent]) ∧
    applyEffects (fileChannelHandler buf payloadNewContent) buf = payloadNewContent := by
  by_cases h : payloadNewContent = buf
  · subst h
    simp [fileChannelHandler, applyEffects]
  · refine ⟨fun _ => ?_, ?_⟩ <;>
      simp [fileChannelHandler, bne_iff_ne, h, applyEffects, applyEffect]

/-- Witness for C1 (amended) at a dirty buffer and a differing remote
content. -/
theorem C1_witness :
    fileChannelHandler "local draft" "remote version" =
      [Effect.setContent "remote version"] ∧
    applyEffects (fileChannelHandler "local draft" "remote version") "local draft" =
      "remote version" :=
  ⟨(C1_remote_update_never_lost "local draft" "remote version").1 (by decide),
   (C1_remote_update_never_lost "local draft" "remote version").2⟩

/-- C7: a presence upsert that fails at the backing store is swallowed:
the call returns normally with the store unchanged, the only effect is a
console log — no toast is ever raised and the local buffer is untouched. -/
theorem C7_presence_failure_swallowed (fid uid : String) (c s e : Int)
    (now err : String) (table : List SessionRow)
    (hf : fid.isEmpty = false) (hu : uid.isEmpty = false) :
    updateEditingSession (some fid) (some uid) c s e now (some err) table =
      (table, [Effect.consoleError ("Error updating editing session: " ++ err)]) ∧
    (∀ (t d : String) (b : Bool),
      Effect.toast t d b ∉
        (updateEditingSession (some fid) (some uid) c s e now (some err) table).2) ∧
    (∀ buf : String,
      applyEffects (updateEditingSession (some fid) (some uid) c s e now (some err) table).2
        buf = buf) := by
  refine ⟨?_, ?_, ?_⟩ <;> simp [updateEditingSession, hf, hu, applyEffects, applyEffect]

/-- Witness for C7 at a concrete failing upsert. -/
theorem C7_witness :
    updateEditingSession (some "f1") (some "u1") 3 3 3 "t0" (some "boom") [] =
      ([], [Effect.consoleError "Error updating editing session: boom"]) ∧
    (∀ (t d : String) (b : Bool),
      Effect.toast t d b ∉
        (updateEditingSession (some "f1") (some "u1") 3 3 3 "t0" (some "boom") []).2) ∧
    (∀ buf : String,
      applyEffects (updateEditingSession (some "f1") (some "u1") 3 3 3 "t0" (some "boom") []).2
        buf = buf) :=
  C7_presence_failure_swallowed "f1" "u1" 3 3 3 "t0" "boom" [] rfl rfl

/-- C2 is a bug in the code: two local edits 100 ms apart (well inside
one 1000 ms debounce window) each schedule their own auto-save timer, the
`clearTimeout` closure built by `handleContentChange` is discarded by every
caller, and so both timers fire — two writes reach the backing store (the
first carrying stale intermediate content) where the spec requires exactly
one write with the final content. -/
theorem C2_two_edits_two_writes :
    firedWrites (handleContentChange (handleContentChange ⟨"", []⟩ 0 "a") 100 "ab") =
      ["a", "ab"] ∧
    (firedWrites (handleContentChange (handleContentChange ⟨"", []⟩ 0 "a") 100 "ab")).length
      ≠ 1 := by
  constructor
  · rfl
  · simp [firedWrites, handleContentChange]

/-- C3: a content write that fails at the backing store is surfaced as a
destructive (user-visible failure) toast, the store is left unchanged, and
the local edit buffer is preserved — both on the debounced-save path
(`saveFileContent`) and on the explicit save path (`handleSave`), where the
editor content and its dirty flag are untouched so the user can retry. -/
theorem C3_write_failure_surfaced_buffer_preserved
    (fid newContent now err : String) (st : BackendState) (buf : String)
    (f m : String) (est : EditorState)
    (hf : fid.isEmpty = false) (hsel : f.isEmpty = false) :
    saveFileContent (some fid) newContent now (some err) st =
      (st, [Effect.consoleError ("Error saving file: " ++ err),
            Effect.toast "Error saving file" err true]) ∧
    Effect.toast "Error saving file" err true ∈
      (saveFileContent (some fid) newContent now (some err) st).2 ∧
    applyEffects (saveFileContent (some fid) newContent now (some err) st).2 buf = buf ∧
    handleSave (some f) est (SaveResult.err m) =
      (est, [Effect.toast "Save failed" m true]) := by
  refine ⟨?_, ?_, ?_, ?_⟩ <;>
    simp [saveFileContent, handleSave, hf, hsel, applyEffects, applyEffect]

/-- Witness for C3 at a concrete failing write. -/
theorem C3_witness :
    saveFileContent (some "f1") "draft" "t1" (some "down") ⟨[], []⟩ =
      (⟨[], []⟩, [Effect.consoleError "Error saving file: down",
                  Effect.toast "Error saving file" "down" true]) ∧
    Effect.toast "Error saving file" "down" true ∈
      (saveFileContent (some "f1") "draft" "t1" (some "down") ⟨[], []⟩).2 ∧
    applyEffects (saveFileContent (some "f1") "draft" "t1" (some "down") ⟨[], []⟩).2 "draft"
      = "draft" ∧
    handleSave (some "notes.md") ⟨"draft", true⟩ (SaveResult.err "down") =
      (⟨"draft", true⟩, [Effect.toast "Save failed" "down" true]) :=
  C3_write_failure_surfaced_buffer_preserved "f1" "draft" "t1" "down" ⟨[], []⟩ "draft"
    "notes.md" "down" ⟨"draft", true⟩ rfl rfl

/-- C4: every record in the collaborator list computed for caller `uid` is
active and belongs to a user other than `uid`: the caller's own record and
deactivated records never appear, regardless of recency. -/
theorem C4_list_excludes_caller_and_inactive
    (sessions : List SessionRow) (profiles : List ProfileRow) (fid uid : String)
    (c : CollaboratorInfo) (hc : c ∈ loadCollaborators sessions profiles fid (some uid)) :
    c.is_active = true ∧ c.id ≠ uid := by
  unfold loadCollaborators at hc
  obtain ⟨s, hs, rfl⟩ := List.mem_map.mp hc
  obtain ⟨hs1, hne⟩ := List.mem_filter.mp hs
  obtain ⟨_, hq⟩ := List.mem_filter.mp hs1
  have hq2 : s.file_id = fid ∧ s.is_active = true := by simpa using hq
  refine ⟨hq2.2, ?_⟩
  intro h
  rw [bne_iff_ne] at hne
  exact hne (congrArg some h)

/-- Witness for C4: a concrete store with an active foreign record, an
inactive foreign record, and the caller's own record; the one listed
collaborator is active and is not the caller. -/
theorem C4_witness :
    (⟨"u2", "Anonymous", none, 1, 2, 3, true⟩ : CollaboratorInfo).is_active = true ∧
    (⟨"u2", "Anonymous", none, 1, 2, 3, true⟩ : CollaboratorInfo).id ≠ "u1" :=
  C4_list_excludes_caller_and_inactive
    [⟨"f1", "u2", 1, 2, 3, true, "t1"⟩,
     ⟨"f1", "u3", 0, 0, 0, false, "t9"⟩,
     ⟨"f1", "u1", 4, 4, 4, true, "t2"⟩] [] "f1" "u1"
    ⟨"u2", "Anonymous", none, 1, 2, 3, true⟩ (by decide)

/-- C5: a successful `write(documentId, newContent)` emits no error effect,
leaves every baseline untouched, and on the `files` table changes exactly
the matching row's `content` and `updated_at`: every row of the updated
table comes from a row of the old table with identity, project id,
filename, file type, creator and creation time unchanged — the matching
row now carrying `newContent` and the new timestamp, every other row
byte-for-byte identical. -/
theorem C5_write_updates_content_and_frames_rest
    (st : BackendState) (fid newContent now : String) (hf : fid.isEmpty = false) :
    (saveFileContent (some fid) newContent now none st).2 = [] ∧
    (saveFileContent (some fid) newContent now none st).1.baselines = st.baselines ∧
    (∀ g ∈ (saveFileContent (some fid) newContent now none st).1.files,
      ∃ f0, f0 ∈ st.files ∧
        g.id = f0.id ∧ g.project_id = f0.project_id ∧ g.filename = f0.filename ∧
        g.file_type = f0.file_type ∧ g.created_by = f0.created_by ∧
        g.created_at = f0.created_at ∧
        ((f0.id = fid ∧ g.content = newContent ∧ g.updated_at = now) ∨
         (f0.id ≠ fid ∧ g = f0))) ∧
    (∀ f0 ∈ st.files,
      (f0.id = fid → { f0 with content := newContent, updated_at := now } ∈
        (saveFileContent (some fid) newContent now none st).1.files) ∧
      (f0.id ≠ fid → f0 ∈ (saveFileContent (some fid) newContent now none st).1.files)) := by
  have hred : saveFileContent (some fid) newContent now none st =
      ({ st with files := filesUpdate st.files fid newContent now }, []) := by
    simp [saveFileContent, hf]
  rw [hred]
  refine ⟨rfl, rfl, ?_, ?_⟩
  · intro g hg
    simp only [filesUpdate] at hg
    obtain ⟨f0, hf0, rfl⟩ := List.mem_map.mp hg
    refine ⟨f0, hf0, ?_⟩
    by_cases h : f0.id = fid
    · simp [h]
    · simp [h]
  · intro f0 hf0
    constructor
    · intro h
      simp only [filesUpdate]
      refine List.mem_map.mpr ⟨f0, hf0, ?_⟩
      simp [h]
    · intro h
      simp only [filesUpdate]
      refine List.mem_map.mpr ⟨f0, hf0, ?_⟩
      simp [h]

/-- Witness for C5 on a concrete two-file store with a baseline entry. -/
theorem C5_witness :
    (saveFileContent (some "f1") "new text" "t1" none
        ⟨[⟨"f1", "p1", "a.md", "old text", none, none, "t0", "t0"⟩,
          ⟨"f2", "p1", "b.md", "keep", none, none, "t0", "t0"⟩],
         [("a.md", "base")]⟩).2 = [] ∧
    (saveFileContent (some "f1") "new text" "t1" none
        ⟨[⟨"f1", "p1", "a.md", "old text", none, none, "t0", "t0"⟩,
          ⟨"f2", "p1", "b.md", "keep", none, none, "t0", "t0"⟩],
         [("a.md", "base")]⟩).1.baselines = [("a.md", "base")] ∧
    (∀ g ∈ (saveFileContent (some "f1") "new text" "t1" none
        ⟨[⟨"f1", "p1", "a.md", "old text", none, none, "t0", "t0"⟩,
          ⟨"f2", "p1", "b.md", "keep", none, none, "t0", "t0"⟩],
         [("a.md", "base")]⟩).1.files,
      ∃ f0, f0 ∈ [⟨"f1", "p1", "a.md", "old text", none, none, "t0", "t0"⟩,
          (⟨"f2", "p1", "b.md", "keep", none, none, "t0", "t0"⟩ : FileRow)] ∧
        g.id = f0.id ∧ g.project_id = f0.project_id ∧ g.filename = f0.filename ∧
        g.file_type = f0.file_type ∧ g.created_by = f0.created_by ∧
        g.created_at = f0.created_at ∧
        ((f0.id = "f1" ∧ g.content = "new text" ∧ g.updated_at = "t1") ∨
         (f0.id ≠ "f1" ∧ g = f0))) ∧
    (∀ f0 ∈ [⟨"f1", "p1", "a.md", "old text", none, none, "t0", "t0"⟩,
          (⟨"f2", "p1", "b.md", "keep", none, none, "t0", "t0"⟩ : FileRow)],
      (f0.id = "f1" → { f0 with content := "new text", updated_at := "t1" } ∈
        (saveFileContent (some "f1") "new text" "t1" none
          ⟨[⟨"f1", "p1", "a.md", "old text", none, none, "t0", "t0"⟩,
            ⟨"f2", "p1", "b.md", "keep", none, none, "t0", "t0"⟩],
           [("a.md", "base")]⟩).1.files) ∧
      (f0.id ≠ "f1" → f0 ∈
        (saveFileContent (some "f1") "new text" "t1" none
          ⟨[⟨"f1", "p1", "a.md", "old text", none, none, "t0", "t0"⟩,
            ⟨"f2", "p1", "b.md", "keep", none, none, "t0", "t0"⟩],
           [("a.md", "base")]⟩).1.files)) :=
  C5_write_updates_content_and_frames_rest
    ⟨[⟨"f1", "p1", "a.md", "old text", none, none, "t0", "t0"⟩,
      ⟨"f2", "p1", "b.md", "keep", none, none, "t0", "t0"⟩],
     [("a.md", "base")]⟩ "f1" "new text" "t1" rfl

/-- A row matches `(fid, uid)` exactly when its key is that pair. -/
theorem matchesKey_iff_skey (fid uid : String) (r : SessionRow) :
    matchesKey fid uid r = true ↔ skey r = (fid, uid) := by
  simp [matchesKey, skey, Prod.ext_iff]

/-- The replacement function inside `sessionUpsert` preserves row keys. -/
theorem skey_upsertFun (row r : SessionRow) :
    skey (if matchesKey row.file_id row.user_id r then row else r) = skey r := by
  cases h : matchesKey row.file_id row.user_id r with
  | false => simp [h]
  | true =>
      have hk := (matchesKey_iff_skey row.file_id row.user_id r).mp h
      have h1 : r.file_id = row.file_id := congrArg Prod.fst hk
      have h2 : r.user_id = row.user_id := congrArg Prod.snd hk
      simp [h, skey, h1, h2]

/-- `sessionUpsert` preserves the at-most-one-record-per-key invariant. -/
theorem sessionUpsert_unique (table : List SessionRow) (row : SessionRow)
    (h : sessionKeyUnique table) : sessionKeyUnique (sessionUpsert table row) := by
  unfold sessionUpsert
  split
  · rw [sessionKeyUnique, List.pairwise_map]
    exact h.imp fun {a b} hab => by
      simpa only [skey_upsertFun] using hab
  · next hany =>
      rw [sessionKeyUnique, List.pairwise_append]
      refine ⟨h, List.pairwise_singleton _ _, ?_⟩
      intro a ha b hb
      have hb' : b = row := by simpa using hb
      rw [hb']
      intro hk
      have hm : matchesKey row.file_id row.user_id a = true :=
        (matchesKey_iff_skey _ _ a).mpr hk
      exact hany (List.any_eq_true.mpr ⟨a, ha, hm⟩)

/-- The upserted row is a member of the resulting table. -/
theorem sessionUpsert_mem (table : List SessionRow) (row : SessionRow) :
    row ∈ sessionUpsert table row := by
  unfold sessionUpsert
  split
  · next hany =>
      obtain ⟨a, ha, hm⟩ := List.any_eq_true.mp hany
      exact List.mem_map.mpr ⟨a, ha, by simp [hm]⟩
  · simp

/-- After the upsert, any row carrying the upserted key is the new row. -/
theorem sessionUpsert_key_eq (table : List SessionRow) (row r : SessionRow)
    (hr : r ∈ sessionUpsert table row) (hk : skey r = skey row) : r = row := by
  unfold sessionUpsert at hr
  split at hr
  · obtain ⟨a, ha, hfa⟩ := List.mem_map.mp hr
    by_cases hm : matchesKey row.file_id row.user_id a = true
    · rw [← hfa]
      simp [hm]
    · exfalso
      rw [← hfa, skey_upsertFun] at hk
      exact hm ((matchesKey_iff_skey _ _ a).mpr hk)
  · next hany =>
      rcases List.mem_append.mp hr with h1 | h2
      · exfalso
        have hm : matchesKey row.file_id row.user_id r = true :=
          (matchesKey_iff_skey _ _ r).mpr hk
        exact hany (List.any_eq_true.mpr ⟨r, h1, hm⟩)
      · simpa using h2

/-- Rows at keys other than the upserted one come from the old table. -/
theorem sessionUpsert_key_ne (table : List SessionRow) (row r : SessionRow)
    (hr : r ∈ sessionUpsert table row) (hk : skey r ≠ skey row) : r ∈ table := by
  unfold sessionUpsert at hr
  split at hr
  · obtain ⟨a, ha, hfa⟩ := List.mem_map.mp hr
    by_cases hm : matchesKey row.file_id row.user_id a = true
    · exfalso
      apply hk
      rw [← hfa]
      simp [hm, (matchesKey_iff_skey _ _ a).mp hm, skey]
    · rw [← hfa]
      simpa [hm] using ha
  · rcases List.mem_append.mp hr with h1 | h2
    · exact h1
    · exfalso
      exact hk (by rw [show r = row by simpa using h2])

/-- Deactivation preserves the at-most-one-record-per-key invariant. -/
theorem deactivateSession_unique (table : List SessionRow) (fid uid : String)
    (h : sessionKeyUnique table) : sessionKeyUnique (deactivateSession table fid uid) := by
  unfold deactivateSession
  rw [sessionKeyUnique, List.pairwise_map]
  refine h.imp fun {a b} hab => ?_
  by_cases ha : (a.file_id == fid && a.user_id == uid) = true <;>
    by_cases hb : (b.file_id == fid && b.user_id == uid) = true <;>
      simpa [ha, hb, skey] using hab

/-- C6: starting from a store with at most one record per
`(file_id, user_id)` pair, a presence upsert raises no effect, preserves
that uniqueness invariant, places exactly the caller's record — with
`is_active = true` and `last_activity` refreshed to the time of the call —
at the caller's key, leaves every other key's record drawn unchanged from
the old store, and deactivation preserves the invariant as well. -/
theorem C6_upsert_unique_per_key (table : List SessionRow) (fid uid : String)
    (c s e : Int) (now : String)
    (hf : fid.isEmpty = false) (hu : uid.isEmpty = false)
    (huniq : sessionKeyUnique table) :
    (updateEditingSession (some fid) (some uid) c s e now none table).2 = [] ∧
    sessionKeyUnique (updateEditingSession (some fid) (some uid) c s e now none table).1 ∧
    (⟨fid, uid, c, s, e, true, now⟩ : SessionRow) ∈
      (updateEditingSession (some fid) (some uid) c s e now none table).1 ∧
    (∀ r ∈ (updateEditingSession (some fid) (some uid) c s e now none table).1,
      skey r = (fid, uid) → r = ⟨fid, uid, c, s, e, true, now⟩) ∧
    (∀ r ∈ (updateEditingSession (some fid) (some uid) c s e now none table).1,
      skey r ≠ (fid, uid) → r ∈ table) ∧
    sessionKeyUnique (deactivateSession table fid uid) := by
  have hred : updateEditingSession (some fid) (some uid) c s e now none table =
      (sessionUpsert table ⟨fid, uid, c, s, e, true, now⟩, []) := by
    simp [updateEditingSession, hf, hu]
  rw [hred]
  refine ⟨rfl, sessionUpsert_unique _ _ huniq, sessionUpsert_mem _ _, ?_, ?_,
    deactivateSession_unique _ _ _ huniq⟩
  · intro r hr hk
    exact sessionUpsert_key_eq _ _ _ hr hk
  · intro r hr hk
    exact sessionUpsert_key_ne _ _ _ hr hk

/-- Witness for C6 on a concrete store holding another user's record. -/
theorem C6_witness :
    (updateEditingSession (some "f1") (some "u1") 7 7 9 "t5" none
        [⟨"f1", "u9", 0, 0, 0, true, "t0"⟩]).2 = [] ∧
    sessionKeyUnique (updateEditingSession (some "f1") (some "u1") 7 7 9 "t5" none
        [⟨"f1", "u9", 0, 0, 0, true, "t0"⟩]).1 ∧
    (⟨"f1", "u1", 7, 7, 9, true, "t5"⟩ : SessionRow) ∈
      (updateEditingSession (some "f1") (some "u1") 7 7 9 "t5" none
        [⟨"f1", "u9", 0, 0, 0, true, "t0"⟩]).1 ∧
    (∀ r ∈ (updateEditingSession (some "f1") (some "u1") 7 7 9 "t5" none
        [⟨"f1", "u9", 0, 0, 0, true, "t0"⟩]).1,
      skey r = ("f1", "u1") → r = ⟨"f1", "u1", 7, 7, 9, true, "t5"⟩) ∧
    (∀ r ∈ (updateEditingSession (some "f1") (some "u1") 7 7 9 "t5" none
        [⟨"f1", "u9", 0, 0, 0, true, "t0"⟩]).1,
      skey r ≠ ("f1", "u1") → r ∈ [⟨"f1", "u9", 0, 0, 0, true, "t0"⟩]) ∧
    sessionKeyUnique (deactivateSession [⟨"f1", "u9", 0, 0, 0, true, "t0"⟩] "f1" "u1") :=
  C6_upsert_unique_per_key [⟨"f1", "u9", 0, 0, 0, true, "t0"⟩] "f1" "u1" 7 7 9 "t5"
    rfl rfl (by simp [sessionKeyUnique])

/-- A single-character pattern is a prefix exactly of lines starting with
that character. -/
theorem isPrefixOf_single_iff (c : Char) (l : List Char) :
    List.isPrefixOf [c] l = true ↔ ∃ t, l = c :: t := by
  cases l with
  | nil => simp [List.isPrefixOf]
  | cons a t =>
      constructor
      · intro h
        have hca : c = a := by simpa [List.isPrefixOf] using h
        exact ⟨t, by rw [hca]⟩
      · rintro ⟨t', ht⟩
        injection ht with h1 _
        subst h1
        simp [List.isPrefixOf]

/-- The `@@` pattern is a prefix exactly of lines starting with two `@`. -/
theorem isPrefixOf_atat_iff (l : List Char) :
    List.isPrefixOf ['@', '@'] l = true ↔ ∃ t, l = '@' :: '@' :: t := by
  cases l with
  | nil => simp [List.isPrefixOf]
  | cons a t =>
      cases t with
      | nil => simp [List.isPrefixOf]
      | cons b t2 =>
          constructor
          · intro h
            have hab : '@' = a ∧ '@' = b := by simpa [List.isPrefixOf] using h
            exact ⟨t2, by rw [← hab.1, ← hab.2]⟩
          · rintro ⟨t', ht⟩
            injection ht with h1 ht2
            injection ht2 with h2 _
            subst h1
            subst h2
            simp [List.isPrefixOf]

/-- C8: `classifyDiffLine` sends every diff line to exactly one of the four
kinds — the result is the whole-line header record exactly when the line
starts with `@@`, the marker-stripped added record exactly when it starts
with `+`, the marker-stripped removed record exactly when it starts with
`-`, and the whole-line context record exactly when none of the three
prefixes is present. -/
theorem C8_diff_line_classification (line : List Char) :
    (classifyDiffLine line = ⟨HunkKind.header, line⟩ ↔
      List.isPrefixOf ['@', '@'] line = true) ∧
    (classifyDiffLine line = ⟨HunkKind.added, line.drop 1⟩ ↔
      List.isPrefixOf ['+'] line = true) ∧
    (classifyDiffLine line = ⟨HunkKind.removed, line.drop 1⟩ ↔
      List.isPrefixOf ['-'] line = true) ∧
    (classifyDiffLine line = ⟨HunkKind.context, line⟩ ↔
      (List.isPrefixOf ['@', '@'] line = false ∧
       List.isPrefixOf ['+'] line = false ∧
       List.isPrefixOf ['-'] line = false)) := by
  by_cases hH : List.isPrefixOf ['@', '@'] line = true
  · obtain ⟨t, rfl⟩ := (isPrefixOf_atat_iff line).mp hH
    have hP : List.isPrefixOf ['+'] ('@' :: '@' :: t) = false := by
      simp [List.isPrefixOf]
    have hM : List.isPrefixOf ['-'] ('@' :: '@' :: t) = false := by
      simp [List.isPrefixOf]
    simp [classifyDiffLine, hH, hP, hM]
  · have hH' : List.isPrefixOf ['@', '@'] line = false := Bool.eq_false_iff.mpr hH
    by_cases hP : List.isPrefixOf ['+'] line = true
    · obtain ⟨t, rfl⟩ := (isPrefixOf_single_iff '+' line).mp hP
      have hM : List.isPrefixOf ['-'] ('+' :: t) = false := by
        simp [List.isPrefixOf]
      simp [classifyDiffLine, hH', hP, hM]
    · have hP' : List.isPrefixOf ['+'] line = false := Bool.eq_false_iff.mpr hP
      by_cases hM : List.isPrefixOf ['-'] line = true
      · simp [classifyDiffLine, hH', hP', hM]
      · have hM' : List.isPrefixOf ['-'] line = false := Bool.eq_false_iff.mpr hM
        simp [classifyDiffLine, hH', hP', hM']

/-- Witness for C8: the classification evaluated on one line of each kind
(the diff of the spec's concrete scenario in §8.5). -/
theorem C8_witness :
    classifyDiffLine ['@', '@', ' ', '-', '2', ' ', '+', '2', ' ', '@', '@'] =
      ⟨HunkKind.header, ['@', '@', ' ', '-', '2', ' ', '+', '2', ' ', '@', '@']⟩ ∧
    classifyDiffLine ['+', 'l', 'i', 'n', 'e', 'X'] =
      ⟨HunkKind.added, ['l', 'i', 'n', 'e', 'X']⟩ ∧
    classifyDiffLine ['-', 'l', 'i', 'n', 'e', '2'] =
      ⟨HunkKind.removed, ['l', 'i', 'n', 'e', '2']⟩ ∧
    classifyDiffLine ['l', 'i', 'n', 'e', '1'] =
      ⟨HunkKind.context, ['l', 'i', 'n', 'e', '1']⟩ :=
  ⟨(C8_diff_line_classification _).1.mpr (by decide),
   (C8_diff_line_classification _).2.1.mpr (by decide),
   (C8_diff_line_classification _).2.2.1.mpr (by decide),
   (C8_diff_line_classification _).2.2.2.mpr (by decide)⟩

end Collab
